import Mathlib

/-!
# unifost_backend: controllers/authController.js and models/Demo.js

A shallow embedding of the request handlers of `controllers/authController.js`
(`sendToken`, `register`, `login`, `createGeneralLead`, `createDemoRequest`,
`createEnquiry`) and of the `Demo` schema of `models/Demo.js`.

Every handler is a pure function of

* the environment `Env` of one request: the process configuration
  (`process.env`), the clock, and the outcome of every call into a library
  that is not part of the repository (the store driver, bcrypt, jsonwebtoken);
* the store contents `World` before the request;
* the parsed request body.

It returns an `Outcome`: the HTTP response, the store contents after the
request, and the ordered list of library calls the handler performed.
Each `await` of the source that may reject is a step that may fail; the
surrounding `try / catch` turns a failure into the handler's 500 response and
keeps whatever was written to the store before the failure.
-/

namespace Unifost

/-! ## Request values -/

/-- A field of a parsed JSON request body. `undefined` is a key that is absent.
Numbers are the integral ones (the handlers test a number only for being zero).
Objects and arrays are kept as their JSON text: the handlers only test them for
truthiness and hand them to the libraries. -/
inductive JVal where
  | undefined
  | null
  | bool (b : Bool)
  | num (n : Int)
  | str (s : String)
  | obj (raw : String)
  deriving DecidableEq, Repr

/-- JavaScript truthiness (`!v` is `false`): `undefined`, `null`, `false`, `0`
and the empty string are falsy, everything else is truthy. -/
def JVal.truthy : JVal → Bool
  | .undefined => false
  | .null => false
  | .bool b => b
  | .num n => n != 0
  | .str s => s != ""
  | .obj _ => true

/-- A field that is absent (`undefined` or `null`) or the empty string. -/
def JVal.absentOrEmpty : JVal → Bool
  | .undefined => true
  | .null => true
  | .str s => s == ""
  | _ => false

/-! ## Stored records -/

/-- Modelled from the spec: `models/User.js` is not among the sources. The spec
(section 3) lists the fields of a User: name, email, phone, course, university,
qualification, experience, password hash, active flag, last-login timestamp and
creation timestamp; `_id` is the identifier the store driver gives every
document. Timestamps are milliseconds since the epoch. -/
structure User where
  _id : String
  name : JVal
  email : JVal
  phone : JVal
  course : JVal
  university : JVal
  qualification : JVal
  experience : JVal
  passwordHash : String
  createdAt : Int
  active : Bool
  lastLogin : Option Int
  deriving DecidableEq, Repr

/-- Modelled from the spec: `models/Lead.js` is not among the sources. A Lead is
the denormalized copy of the registration-time profile fields (spec section 3),
built by `register` from the eight properties it passes to `new Lead`. -/
structure Lead where
  name : JVal
  email : JVal
  phone : JVal
  course : JVal
  university : JVal
  qualification : JVal
  experience : JVal
  createdAt : Int
  deriving DecidableEq, Repr

/-- Modelled from the spec: `models/GenralLead.js` is not among the sources.
Fields: name, email, phone, free-text message (spec section 3). -/
structure GeneralLead where
  name : JVal
  email : JVal
  phone : JVal
  message : JVal
  deriving DecidableEq, Repr

/-- A stored Demo document, after the casts and setters of `demoSchema`
(`models/Demo.js`): six strings and the creation timestamp. -/
structure Demo where
  name : String
  email : String
  phone : String
  city : String
  course : String
  type : String
  createdAt : Int
  deriving DecidableEq, Repr

/-- Modelled from the spec: `models/Enquiry.js` is not among the sources.
Fields: name, email, phone, optional course and university, optional message,
status (spec section 3); `createEnquiry` passes these seven properties. -/
structure Enquiry where
  name : JVal
  email : JVal
  phone : JVal
  course : JVal
  university : JVal
  message : JVal
  status : String
  deriving DecidableEq, Repr

/-- The five collections of the document store. -/
inductive Coll where
  | users
  | leads
  | generalLeads
  | demos
  | enquiries
  deriving DecidableEq, Repr

/-- Contents of the document store. -/
structure World where
  users : List User
  leads : List Lead
  generalLeads : List GeneralLead
  demos : List Demo
  enquiries : List Enquiry
  deriving DecidableEq, Repr

/-! ## Environment of one request -/

/-- Everything a handler reads from outside the request: `process.env`, the
clock, and the outcomes of the calls into the store driver, bcrypt and
jsonwebtoken. `none` (or `false`) stands for a call that throws or rejects. -/
structure Env where
  /-- The variable `process.env.JWT_EXPIRES_IN` -/
  jwtExpiresIn : Option String
  /-- The variable `process.env.JWT_SECRET` -/
  jwtSecret : Option String
  /-- The variable `process.env.NODE_ENV` -/
  nodeEnv : Option String
  /-- The clock, `new Date().getTime()` and `Date.now()`: milliseconds since the epoch -/
  now : Int
  /-- Whether `User.findOne` resolves (rather than rejects) -/
  findOk : Bool
  /-- The result of `bcrypt.genSalt(10)` -/
  genSalt : Option String
  /-- The result of `bcrypt.hash(password, salt)` -/
  hash : JVal → String → Option String
  /-- The result of `bcrypt.compare(password, passwordHash)` -/
  compare : JVal → String → Option Bool
  /-- Whether a `save()` on the given collection is accepted by the store
  (schema validation of the models that are not among the sources included) -/
  writeOk : Coll → Bool
  /-- The identifier the driver gives the document built by `new User` -/
  newUserId : String
  /-- The default the User schema gives `active` -/
  defaultActive : Bool
  /-- Whether jsonwebtoken accepts the string as an `expiresIn` time span -/
  validTimespan : String → Bool
  /-- The cast by the driver to String of an object or array, `none` when it refuses -/
  castObj : String → Option String
  /-- The method `String.prototype.toLowerCase` -/
  toLowerCase : String → String
  /-- Rendering of an instant by `toLocaleString("en-IN", Asia/Kolkata)` -/
  toLocaleIST : Int → String

/-! ## Responses -/

/-- A signed token, kept symbolically: the payload `id`, the key and the
`expiresIn` option that `jwt.sign` was given. -/
structure Token where
  id : String
  secret : String
  expiresIn : String
  deriving DecidableEq, Repr

/-- Decoding a token yields the identifier of its payload. -/
def Token.decode (t : Token) : String := t.id

/-- The `user` object of the login response. -/
structure PublicUser where
  id : String
  name : JVal
  email : JVal
  course : JVal
  university : JVal
  deriving DecidableEq, Repr

/-- A cookie set with `res.cookie(name, value, options)`. `maxAge` is `none`
when the computed number is `NaN`. -/
structure Cookie where
  name : String
  value : Token
  httpOnly : Bool
  secure : Bool
  sameSite : String
  maxAge : Option Int
  deriving DecidableEq, Repr

/-- The JSON bodies the handlers send. -/
inductive Body where
  /-- Body `success: false, errors` -/
  | invalid (errors : List String)
  /-- Body `success: false, message` -/
  | failure (message : String)
  /-- Body `success: true, message` -/
  | success (message : String)
  /-- Body `success: true, message, user` -/
  | registered (message : String) (user : User)
  /-- Body `success: true, token, user` -/
  | session (token : Token) (user : PublicUser)
  /-- Body `success: true, message, data` with `data` the document and `createdAtIST` -/
  | booked (message : String) (data : Demo) (createdAtIST : String)
  /-- Body `success: true, message, enquiry` -/
  | enquired (message : String) (enquiry : Enquiry)
  deriving DecidableEq, Repr

/-- An HTTP response: status, cookies set, JSON body. -/
structure Response where
  status : Nat
  cookies : List Cookie
  body : Body
  deriving DecidableEq, Repr

/-- The token carried by a body, if any. -/
def Body.token? : Body → Option Token
  | .session t _ => some t
  | _ => none

/-- A call a handler made into a library, with whether it returned normally. -/
inductive Event where
  | findUser (ok : Bool)
  | genSalt (ok : Bool)
  | hash (ok : Bool)
  | compare (ok : Bool)
  | save (c : Coll) (ok : Bool)
  | sendToken
  | jwtSign (ok : Bool)
  deriving DecidableEq, Repr

/-- Result of running a handler. -/
structure Outcome where
  res : Response
  world : World
  trace : List Event
  deriving DecidableEq, Repr

/-- The response `res.status(code).json(success false, message)`. -/
def fail (code : Nat) (message : String) : Response :=
  { status := code, cookies := [], body := .failure message }

/-! ## sendToken -/

/-- White space skipped by `parseInt` and removed by `trim`. -/
def isJsSpace (c : Char) : Bool :=
  c.val == 0x09 || c.val == 0x0A || c.val == 0x0B || c.val == 0x0C || c.val == 0x0D ||
  c.val == 0x20 || c.val == 0xA0 || c.val == 0x1680 ||
  (0x2000 ≤ c.val && c.val ≤ 0x200A) ||
  c.val == 0x2028 || c.val == 0x2029 || c.val == 0x202F || c.val == 0x205F ||
  c.val == 0x3000 || c.val == 0xFEFF

/-- Value of a digit in the given radix (10 or 16), if the character is one. -/
def digitVal (radix : Nat) (c : Char) : Option Nat :=
  if c.isDigit then some (c.toNat - 48)
  else if radix = 16 ∧ 97 ≤ c.toNat ∧ c.toNat ≤ 102 then some (c.toNat - 87)
  else if radix = 16 ∧ 65 ≤ c.toNat ∧ c.toNat ≤ 70 then some (c.toNat - 55)
  else none

/-- Reads the longest run of digits at the head of the list; `none` when the
first character is not a digit. -/
def readDigits (radix : Nat) : List Char → Option Nat → Option Nat
  | [], acc => acc
  | c :: cs, acc =>
    match digitVal radix c with
    | some d => readDigits radix cs (some (acc.getD 0 * radix + d))
    | none => acc

/-- Digits of `parseInt` after the sign: hexadecimal after `0x` or `0X`,
decimal otherwise. -/
def parseMagnitude : List Char → Option Nat
  | '0' :: 'x' :: cs => readDigits 16 cs none
  | '0' :: 'X' :: cs => readDigits 16 cs none
  | cs => readDigits 10 cs none

/-- The call `parseInt(s)` without a radix: leading white space is skipped, an optional
sign is read, then the longest run of digits; `none` is `NaN`. The result is the
exact integer (a double represents it exactly below `2 ^ 53`). -/
def parseInt (s : String) : Option Int :=
  match s.toList.dropWhile isJsSpace with
  | '-' :: cs => (parseMagnitude cs).map (fun n => - (n : Int))
  | '+' :: cs => (parseMagnitude cs).map (fun n => (n : Int))
  | cs => (parseMagnitude cs).map (fun n => (n : Int))

/-- The constant `24 * 60 * 60 * 1000`. -/
def dayMs : Int := 24 * 60 * 60 * 1000

/-- The expression `process.env.JWT_EXPIRES_IN || "7d"`: an unset or empty variable gives the
default. -/
def expiresInOf (env : Env) : String :=
  match env.jwtExpiresIn with
  | some s => if s != "" then s else "7d"
  | none => "7d"

/-- The `cookieExpiration` of `sendToken`: when the expiry string contains the
character `d`, `parseInt` of it times one day, otherwise one day. `none` is
`NaN`. -/
def cookieExpiration (expiresIn : String) : Option Int :=
  if expiresIn.toList.contains 'd' then (parseInt expiresIn).map (fun n => n * dayMs)
  else some dayMs

/-- The call `jwt.sign(payload id, process.env.JWT_SECRET, expiresIn)`: it throws
when the key is undefined or empty or when the time span is not accepted,
otherwise it yields the signed token. -/
def jwtSign (env : Env) (id : String) (expiresIn : String) : Option Token :=
  match env.jwtSecret with
  | none => none
  | some key =>
    if key != "" && env.validTimespan expiresIn then
      some { id := id, secret := key, expiresIn := expiresIn }
    else none

/-- Whether `process.env.NODE_ENV === "production"`. -/
def isProduction (env : Env) : Bool := env.nodeEnv == some "production"

/-- The helper `sendToken(user, statusCode, res)`: `none` when `jwt.sign` throws
(nothing has been written to the response then), otherwise the response with the
`token` cookie and the JSON body. The second component lists the calls made. -/
def sendToken (env : Env) (user : User) (statusCode : Nat) : Option Response × List Event :=
  let expiresIn := expiresInOf env
  match jwtSign env user._id expiresIn with
  | none => (none, [.sendToken, .jwtSign false])
  | some token =>
    let cookieExpiration := cookieExpiration expiresIn
    (some
      { status := statusCode
        cookies :=
          [{ name := "token"
             value := token
             httpOnly := true
             secure := isProduction env
             sameSite := if isProduction env then "none" else "lax"
             maxAge := cookieExpiration }]
        body := .session token
          { id := user._id
            name := user.name
            email := user.email
            course := user.course
            university := user.university } },
     [.sendToken, .jwtSign true])

/-! ## The User store -/

/-- Modelled from the spec: the query `User.findOne` by email on the User model,
which is not among the sources (spec 4.1 and 4.2: an email present in the
store, a matching email). It rejects (`none`) or resolves to the first stored
user whose email equals the queried value, or to `null` (`some none`). -/
def findOne (env : Env) (w : World) (email : JVal) : Option (Option User) :=
  if env.findOk then some (w.users.find? (fun u => u.email == email)) else none

/-- The offset `5.5 * 60 * 60 * 1000` ms added to the current instant. -/
def istOffset : Int := 19800000

/-- The effect of `user.save()` on a document loaded from the store: the stored
document with the same identifier is replaced. -/
def updateUser (w : World) (user : User) : World :=
  { w with users := w.users.map (fun u => if u._id = user._id then user else u) }

/-! ## register -/

/-- The body of a registration request, as destructured by `register`. -/
structure RegisterBody where
  name : JVal
  email : JVal
  phone : JVal
  course : JVal
  university : JVal
  qualification : JVal
  experience : JVal
  password : JVal
  deriving DecidableEq, Repr

/-- A registration request: the errors `validationResult(req)` collected (the
validation rules are attached by the router, which is not among the sources)
and the body. -/
structure RegisterReq where
  errors : List String
  body : RegisterBody
  deriving DecidableEq, Repr

/-- The document built by `new User` in `register`. -/
def newUserOf (env : Env) (b : RegisterBody) (passwordHash : String) : User :=
  { _id := env.newUserId
    name := b.name
    email := b.email
    phone := b.phone
    course := b.course
    university := b.university
    qualification := b.qualification
    experience := b.experience
    passwordHash := passwordHash
    createdAt := env.now + istOffset
    active := env.defaultActive
    lastLogin := none }

/-- The document built by `new Lead` in `register`. -/
def newLeadOf (env : Env) (b : RegisterBody) : Lead :=
  { name := b.name
    email := b.email
    phone := b.phone
    course := b.course
    university := b.university
    qualification := b.qualification
    experience := b.experience
    createdAt := env.now + istOffset }

/-- The handler `exports.register`. -/
def register (env : Env) (w : World) (req : RegisterReq) : Outcome :=
  if !req.errors.isEmpty then
    ⟨{ status := 400, cookies := [], body := .invalid req.errors }, w, []⟩
  else
    match findOne env w req.body.email with
    | none => ⟨fail 500 "Server error", w, [.findUser false]⟩
    | some (some _) => ⟨fail 400 "Email is already registered", w, [.findUser true]⟩
    | some none =>
      match env.genSalt with
      | none => ⟨fail 500 "Server error", w, [.findUser true, .genSalt false]⟩
      | some salt =>
        match env.hash req.body.password salt with
        | none => ⟨fail 500 "Server error", w, [.findUser true, .genSalt true, .hash false]⟩
        | some passwordHash =>
          let newUser := newUserOf env req.body passwordHash
          if env.writeOk .users then
            let w1 := { w with users := w.users ++ [newUser] }
            let newLead := newLeadOf env req.body
            if env.writeOk .leads then
              ⟨{ status := 201, cookies := []
                 body := .registered "User registered and lead captured" newUser },
               { w1 with leads := w1.leads ++ [newLead] },
               [.findUser true, .genSalt true, .hash true, .save .users true,
                .save .leads true]⟩
            else
              ⟨fail 500 "Server error", w1,
               [.findUser true, .genSalt true, .hash true, .save .users true,
                .save .leads false]⟩
          else
            ⟨fail 500 "Server error", w,
             [.findUser true, .genSalt true, .hash true, .save .users false]⟩

/-! ## login -/

/-- The body of a login request, as destructured by `login`. -/
structure LoginBody where
  email : JVal
  password : JVal
  deriving DecidableEq, Repr

/-- The handler `exports.login`. -/
def login (env : Env) (w : World) (body : LoginBody) : Outcome :=
  if !body.email.truthy || !body.password.truthy then
    ⟨fail 400 "Email and password are required", w, []⟩
  else
    match findOne env w body.email with
    | none => ⟨fail 500 "Server error during login", w, [.findUser false]⟩
    | some none => ⟨fail 401 "Invalid credentials", w, [.findUser true]⟩
    | some (some user) =>
      if !user.active then
        ⟨fail 403 "Account is deactivated. Please contact support.", w, [.findUser true]⟩
      else
        match env.compare body.password user.passwordHash with
        | none => ⟨fail 500 "Server error during login", w, [.findUser true, .compare false]⟩
        | some false => ⟨fail 401 "Invalid credentials", w, [.findUser true, .compare true]⟩
        | some true =>
          let user1 := { user with lastLogin := some (env.now + istOffset) }
          if env.writeOk .users then
            let w1 := updateUser w user1
            match sendToken env user1 200 with
            | (none, calls) =>
              ⟨fail 500 "Server error during login", w1,
               [.findUser true, .compare true, .save .users true] ++ calls⟩
            | (some res, calls) =>
              ⟨res, w1, [.findUser true, .compare true, .save .users true] ++ calls⟩
          else
            ⟨fail 500 "Server error during login", w,
             [.findUser true, .compare true, .save .users false]⟩

/-! ## The intake handlers -/

/-- The body of a general-lead request. -/
structure GeneralLeadBody where
  name : JVal
  email : JVal
  phone : JVal
  message : JVal
  deriving DecidableEq, Repr

/-- The handler `exports.createGeneralLead`. -/
def createGeneralLead (env : Env) (w : World) (b : GeneralLeadBody) : Outcome :=
  if !b.name.truthy || !b.email.truthy || !b.phone.truthy || !b.message.truthy then
    ⟨fail 400 "All fields are required", w, []⟩
  else
    let lead : GeneralLead :=
      { name := b.name, email := b.email, phone := b.phone, message := b.message }
    if env.writeOk .generalLeads then
      ⟨{ status := 201, cookies := [], body := .success "Lead submitted successfully" },
       { w with generalLeads := w.generalLeads ++ [lead] },
       [.save .generalLeads true]⟩
    else
      ⟨fail 500 "Server error", w, [.save .generalLeads false]⟩

/-- The body of a demo request. -/
structure DemoBody where
  name : JVal
  email : JVal
  phone : JVal
  city : JVal
  course : JVal
  type : JVal
  deriving DecidableEq, Repr

/-- The cast of a value to the schema type String: a string is kept, a number or
boolean is printed, an object or array goes through the driver; `none` is a cast
error. `null` and `undefined` are not strings, so a required path rejects them. -/
def castString (env : Env) : JVal → Option String
  | .str s => some s
  | .num n => some (toString n)
  | .bool b => some (if b then "true" else "false")
  | .obj raw => env.castObj raw
  | .undefined => none
  | .null => none

/-- The setter `trim: true`, `String.prototype.trim`. -/
def jsTrim (s : String) : String :=
  String.mk (((s.toList.dropWhile isJsSpace).reverse.dropWhile isJsSpace).reverse)

/-- A path declared `type: String, required: true`, after the setters `f` of
the path: the cast must succeed and leave a non-empty string. -/
def requiredString (env : Env) (f : String → String) (v : JVal) : Option String :=
  match castString env v with
  | some s => if f s != "" then some (f s) else none
  | none => none

/-- The validation of `demoSchema` (`models/Demo.js`) that `save()` runs on the
document built by `new Demo`: name, phone, city and course are required and
trimmed, email is required, trimmed and lowercased, type is required and must
be one of `video`, `home`; `createdAt` defaults to `Date.now`. `none` is a
validation error. -/
def validateDemo (env : Env) (b : DemoBody) : Option Demo :=
  match requiredString env jsTrim b.name,
        requiredString env (fun s => env.toLowerCase (jsTrim s)) b.email,
        requiredString env jsTrim b.phone,
        requiredString env jsTrim b.city,
        requiredString env jsTrim b.course,
        requiredString env id b.type with
  | some name, some email, some phone, some city, some course, some type =>
    if type = "video" ∨ type = "home" then
      some { name := name, email := email, phone := phone, city := city
             course := course, type := type, createdAt := env.now }
    else none
  | _, _, _, _, _, _ => none

/-- The handler `exports.createDemoRequest`. -/
def createDemoRequest (env : Env) (w : World) (b : DemoBody) : Outcome :=
  if !b.name.truthy || !b.email.truthy || !b.phone.truthy || !b.city.truthy ||
      !b.course.truthy || !b.type.truthy then
    ⟨fail 400 "All fields are required", w, []⟩
  else
    match validateDemo env b with
    | none => ⟨fail 500 "Server error", w, [.save .demos false]⟩
    | some demoRequest =>
      if env.writeOk .demos then
        let istTime := env.toLocaleIST demoRequest.createdAt
        ⟨{ status := 201, cookies := []
           body := .booked "Booking request submitted successfully" demoRequest istTime },
         { w with demos := w.demos ++ [demoRequest] },
         [.save .demos true]⟩
      else
        ⟨fail 500 "Server error", w, [.save .demos false]⟩

/-- The body of an enquiry request. -/
structure EnquiryBody where
  name : JVal
  email : JVal
  phone : JVal
  course : JVal
  university : JVal
  message : JVal
  deriving DecidableEq, Repr

/-- The handler `exports.createEnquiry`. -/
def createEnquiry (env : Env) (w : World) (b : EnquiryBody) : Outcome :=
  if !b.name.truthy || !b.email.truthy || !b.phone.truthy then
    ⟨fail 400 "Name, email, and phone are required", w, []⟩
  else
    let newEnquiry : Enquiry :=
      { name := b.name, email := b.email, phone := b.phone, course := b.course
        university := b.university, message := b.message, status := "pending" }
    if env.writeOk .enquiries then
      ⟨{ status := 201, cookies := []
         body := .enquired "Enquiry submitted successfully" newEnquiry },
       { w with enquiries := w.enquiries ++ [newEnquiry] },
       [.save .enquiries true]⟩
    else
      ⟨fail 500 "Server error while saving enquiry", w, [.save .enquiries false]⟩

/-! ## Sample inputs -/

/-- An environment in which every library call succeeds. -/
def env0 : Env :=
  { jwtExpiresIn := none
    jwtSecret := some "s3cret"
    nodeEnv := none
    now := 1700000000000
    findOk := true
    genSalt := some "salt"
    hash := fun _ salt => some (salt ++ "#")
    compare := fun p h => some (p == .str "pw123456" && h == "salt#")
    writeOk := fun _ => true
    newUserId := "u2"
    defaultActive := true
    validTimespan := fun s => s == "7d"
    castObj := fun _ => none
    toLowerCase := fun s => s.toLower
    toLocaleIST := fun _ => "14/11/2023, 3:43:20 am" }

/-- A stored user. -/
def alice : User :=
  { _id := "u1"
    name := .str "A"
    email := .str "a@x.com"
    phone := .str "1"
    course := .str "C"
    university := .str "U"
    qualification := .str "Q"
    experience := .str "0"
    passwordHash := "salt#"
    createdAt := 1600000000000
    active := true
    lastLogin := none }

/-- A store holding `alice` only. -/
def world0 : World :=
  { users := [alice], leads := [], generalLeads := [], demos := [], enquiries := [] }

/-- A store without any record. -/
def emptyWorld : World :=
  { users := [], leads := [], generalLeads := [], demos := [], enquiries := [] }

/-- A deactivated copy of `alice`. -/
def bob : User := { alice with _id := "u3", email := .str "b@x.com", active := false }

/-- A store holding `alice` and the deactivated `bob`. -/
def world1 : World := { world0 with users := [alice, bob] }

/-- The environment `env0` with a Lead collection that refuses writes. -/
def envLeadDown : Env :=
  { env0 with writeOk := fun c => c != .leads }

/-- The environment `env0` without `JWT_SECRET`. -/
def envNoSecret : Env :=
  { env0 with jwtSecret := none }

/-- A valid registration request with an email no stored user has. -/
def reqB : RegisterReq :=
  { errors := []
    body :=
      { name := .str "B", email := .str "new@x.com", phone := .str "2", course := .str "C"
        university := .str "U", qualification := .str "Q", experience := .str "0"
        password := .str "pw123456" } }

/-- The environment `env0` with `JWT_EXPIRES_IN` set to sixty seconds, a time
span the signer accepts. -/
def envSeconds : Env :=
  { env0 with jwtExpiresIn := some "60 seconds", validTimespan := fun _ => true }

/-- A demo request without a name whose type is neither `video` nor `home`. -/
def demoNoName : DemoBody :=
  { name := .undefined, email := .str "d@x.com", phone := .str "3", city := .str "Pune"
    course := .str "MBA", type := .str "online" }

/-- A complete demo request whose type is neither `video` nor `home`. -/
def demoOnline : DemoBody :=
  { demoNoName with name := .str "D" }

/-- A complete demo request whose type is the empty string. -/
def demoNoType : DemoBody :=
  { demoOnline with type := .str "" }

/-- A general-lead request that misses the name only. -/
def leadNoName : GeneralLeadBody :=
  { name := .undefined, email := .str "g@x.com", phone := .str "4", message := .str "hello" }

/-- A general-lead request that misses the message only. -/
def leadNoMessage : GeneralLeadBody :=
  { name := .str "G", email := .str "g@x.com", phone := .str "4", message := .str "" }

/-- An enquiry request that misses the phone. -/
def enquiryNoPhone : EnquiryBody :=
  { name := .str "E", email := .str "e@x.com", phone := .null, course := .str "MBA"
    university := .undefined, message := .undefined }

/-- The names of the required fields of a general-lead request that are absent
or empty: what a response listing the missing fields has to identify. -/
def GeneralLeadBody.missing (b : GeneralLeadBody) : List String :=
  (if b.name.absentOrEmpty then ["name"] else []) ++
  (if b.email.absentOrEmpty then ["email"] else []) ++
  (if b.phone.absentOrEmpty then ["phone"] else []) ++
  (if b.message.absentOrEmpty then ["message"] else [])

/-- A character that prints a decimal digit: `Nat.digitChar k` for some
`k < 10`. -/
def IsDecimalDigit (c : Char) : Prop := ∃ k, k < 10 ∧ c = Nat.digitChar k

/-- The environment `env0` with `JWT_EXPIRES_IN` set to a string that is not a
time span (the signer of `env0` accepts `7d` only). -/
def envBadExpiry : Env :=
  { env0 with jwtExpiresIn := some "forever" }

/-! ## Properties of login -/

/-- C1 as stated fails: a login with a non-empty email and password whose
password does not match the stored hash of the matching user is answered 403,
not 401, when that user is deactivated. -/
theorem login_wrong_password_deactivated_not_401 :
    (LoginBody.mk (.str "b@x.com") (.str "wrong")).email.truthy = true ∧
    (LoginBody.mk (.str "b@x.com") (.str "wrong")).password.truthy = true ∧
    findOne env0 world1 (.str "b@x.com") = some (some bob) ∧
    env0.compare (.str "wrong") bob.passwordHash = some false ∧
    (login env0 world1 ⟨.str "b@x.com", .str "wrong"⟩).res =
      fail 403 "Account is deactivated. Please contact support." ∧
    (login env0 world1 ⟨.str "b@x.com", .str "wrong"⟩).res ≠
      fail 401 "Invalid credentials" := by
  decide

/-- C1, amended: for every login request with a non-empty email and password,
if the email matches no stored user, or it matches a stored user whose active
flag is set and the password does not match that user's stored hash, login
responds with status 401 and the body `success: false, message: Invalid
credentials`, the same one in both cases, and leaves the store unchanged. -/
theorem login_invalid_credentials (env : Env) (w : World) (body : LoginBody)
    (he : body.email.truthy = true) (hp : body.password.truthy = true)
    (h : findOne env w body.email = some none ∨
      ∃ u, findOne env w body.email = some (some u) ∧ u.active = true ∧
        env.compare body.password u.passwordHash = some false) :
    (login env w body).res = fail 401 "Invalid credentials" ∧
    (login env w body).res.status = 401 ∧
    (login env w body).world = w := by
  rcases h with h | ⟨u, hu, ha, hc⟩
  · simp [login, he, hp, h, fail]
  · simp [login, he, hp, hu, ha, hc, fail]

/-- Both cases of `login_invalid_credentials` at concrete requests: an unknown
email, and a wrong password for the active user `alice`. -/
theorem login_invalid_credentials_witness :
    (login env0 world0 ⟨.str "nobody@x.com", .str "pw123456"⟩).res =
      fail 401 "Invalid credentials" ∧
    (login env0 world0 ⟨.str "a@x.com", .str "wrong"⟩).res =
      fail 401 "Invalid credentials" :=
  ⟨(login_invalid_credentials env0 world0 ⟨.str "nobody@x.com", .str "pw123456"⟩
      (by decide) (by decide) (Or.inl (by decide))).1,
   (login_invalid_credentials env0 world0 ⟨.str "a@x.com", .str "wrong"⟩
      (by decide) (by decide)
      (Or.inr ⟨alice, by decide, by decide, by decide⟩)).1⟩

/-- C2: for every login request with a non-empty email and password whose email
matches a stored user with `active = false`, login responds with status 403 and
never reaches token issuance, whatever `bcrypt.compare` would answer: neither
`sendToken` nor `jwt.sign` is called, no cookie is set, the body carries no
token, and the store (so the user's `lastLogin`) is unchanged. -/
theorem login_deactivated (env : Env) (w : World) (body : LoginBody) (u : User)
    (he : body.email.truthy = true) (hp : body.password.truthy = true)
    (hu : findOne env w body.email = some (some u)) (ha : u.active = false) :
    (login env w body).res.status = 403 ∧
    (login env w body).res.body =
      .failure "Account is deactivated. Please contact support." ∧
    Event.sendToken ∉ (login env w body).trace ∧
    (∀ ok, Event.jwtSign ok ∉ (login env w body).trace) ∧
    (∀ c ok, Event.save c ok ∉ (login env w body).trace) ∧
    (login env w body).res.cookies = [] ∧
    (login env w body).res.body.token? = none ∧
    (login env w body).world = w := by
  simp [login, he, hp, hu, ha, fail, Body.token?]

/-- The deactivated user `bob` logging in with the right password. -/
theorem login_deactivated_witness :
    env0.compare (.str "pw123456") bob.passwordHash = some true ∧
    (login env0 world1 ⟨.str "b@x.com", .str "pw123456"⟩).res.status = 403 ∧
    (login env0 world1 ⟨.str "b@x.com", .str "pw123456"⟩).world = world1 :=
  ⟨by decide,
   (login_deactivated env0 world1 ⟨.str "b@x.com", .str "pw123456"⟩ bob
      (by decide) (by decide) (by decide) (by decide)).1,
   (login_deactivated env0 world1 ⟨.str "b@x.com", .str "pw123456"⟩ bob
      (by decide) (by decide) (by decide) (by decide)).2.2.2.2.2.2.2⟩

/-! ## Properties of register -/

/-- C3: for every registration request that passes input validation and whose
email is already present in the User store, register responds with status 400
(`Email is already registered`), no `save` is reached, and the store, the User
and Lead collections included, is unchanged. -/
theorem register_duplicate_email (env : Env) (w : World) (req : RegisterReq) (u : User)
    (hv : req.errors = []) (hu : findOne env w req.body.email = some (some u)) :
    (register env w req).res.status = 400 ∧
    (register env w req).res.body = .failure "Email is already registered" ∧
    (∀ c ok, Event.save c ok ∉ (register env w req).trace) ∧
    (register env w req).world = w ∧
    (register env w req).world.users = w.users ∧
    (register env w req).world.leads = w.leads := by
  simp [register, hv, hu, fail]

/-- Registering again with the email of `alice`. -/
theorem register_duplicate_email_witness :
    (register env0 world0
      ⟨[], ⟨.str "A2", .str "a@x.com", .str "2", .str "C", .str "U", .str "Q", .str "1",
        .str "pw654321"⟩⟩).res.status = 400 ∧
    (register env0 world0
      ⟨[], ⟨.str "A2", .str "a@x.com", .str "2", .str "C", .str "U", .str "Q", .str "1",
        .str "pw654321"⟩⟩).world = world0 :=
  ⟨(register_duplicate_email env0 world0 _ alice rfl (by decide)).1,
   (register_duplicate_email env0 world0 _ alice rfl (by decide)).2.2.2.1⟩

/-- C4 as stated fails: a validated registration with a new email creates a User
but no Lead, and is answered 500 instead of 201, when the store refuses the Lead
write. -/
theorem register_new_email_lead_refused :
    reqB.errors = [] ∧
    findOne envLeadDown world0 reqB.body.email = some none ∧
    (register envLeadDown world0 reqB).res.status = 500 ∧
    (register envLeadDown world0 reqB).world.users.length = world0.users.length + 1 ∧
    (register envLeadDown world0 reqB).world.leads = world0.leads := by
  decide

/-- C4, amended: for every registration request that passes input validation,
whose email is not present in the User store, and for which the password
hashing and both store writes succeed, register creates exactly one User and
exactly one Lead (appended to their collections, nothing else changes); the
Lead's name, email, phone, course, university, qualification and experience
equal the User's and the request's; both carry the same `createdAt`, the
current instant plus 19,800,000 ms; and the response is 201 with the created
User. -/
theorem register_new_email (env : Env) (w : World) (req : RegisterReq)
    (salt passwordHash : String)
    (hv : req.errors = []) (hn : findOne env w req.body.email = some none)
    (hs : env.genSalt = some salt)
    (hh : env.hash req.body.password salt = some passwordHash)
    (hwu : env.writeOk .users = true) (hwl : env.writeOk .leads = true) :
    ∃ (user : User) (lead : Lead),
      (register env w req).world =
        { w with users := w.users ++ [user], leads := w.leads ++ [lead] } ∧
      (register env w req).world.users.length = w.users.length + 1 ∧
      (register env w req).world.leads.length = w.leads.length + 1 ∧
      (user.name = req.body.name ∧ user.email = req.body.email ∧
        user.phone = req.body.phone ∧ user.course = req.body.course ∧
        user.university = req.body.university ∧
        user.qualification = req.body.qualification ∧
        user.experience = req.body.experience) ∧
      (lead.name = user.name ∧ lead.email = user.email ∧ lead.phone = user.phone ∧
        lead.course = user.course ∧ lead.university = user.university ∧
        lead.qualification = user.qualification ∧ lead.experience = user.experience) ∧
      user.passwordHash = passwordHash ∧
      user.createdAt = env.now + 19800000 ∧
      lead.createdAt = env.now + 19800000 ∧
      (register env w req).res.status = 201 ∧
      (register env w req).res.body =
        .registered "User registered and lead captured" user := by
  refine ⟨newUserOf env req.body passwordHash, newLeadOf env req.body, ?_⟩
  simp [register, hv, hn, hs, hh, hwu, hwl, newUserOf, newLeadOf, istOffset]

/-- The request `reqB` registered in `world0` with every library call
succeeding. -/
theorem register_new_email_witness :
    ∃ (user : User) (lead : Lead),
      (register env0 world0 reqB).world =
        { world0 with users := world0.users ++ [user], leads := world0.leads ++ [lead] } ∧
      user.email = .str "new@x.com" ∧ lead.email = .str "new@x.com" ∧
      (register env0 world0 reqB).res.status = 201 := by
  obtain ⟨user, lead, h1, _, _, h4, h5, _, _, _, h9, _⟩ :=
    register_new_email env0 world0 reqB "salt" "salt#" rfl (by decide) rfl (by decide)
      (by decide) (by decide)
  exact ⟨user, lead, h1, h4.2.1, h5.2.1.trans h4.2.1, h9⟩

/-- C10: registration is not atomic across its two writes. For every validated
registration request with a new email in which the User write succeeds and the
Lead write then fails, register responds with the generic 500 body
`success: false, message: Server error`, the User built from the request is
persisted (appended to the User collection, not rolled back), and the Lead
collection is unchanged, so that User has no corresponding Lead. -/
theorem register_not_atomic (env : Env) (w : World) (req : RegisterReq)
    (hv : req.errors = []) (hn : findOne env w req.body.email = some none)
    (hu : Event.save .users true ∈ (register env w req).trace)
    (hl : Event.save .leads false ∈ (register env w req).trace) :
    (register env w req).res = fail 500 "Server error" ∧
    (∃ user : User, user.email = req.body.email ∧ user.name = req.body.name ∧
      (register env w req).world.users = w.users ++ [user]) ∧
    (register env w req).world.leads = w.leads := by
  cases hs : env.genSalt with
  | none => simp [register, hv, hn, hs] at hu
  | some salt =>
    cases hh : env.hash req.body.password salt with
    | none => simp [register, hv, hn, hs, hh] at hu
    | some passwordHash =>
      cases hwu : env.writeOk .users with
      | false => simp [register, hv, hn, hs, hh, hwu] at hu
      | true =>
        cases hwl : env.writeOk .leads with
        | true => simp [register, hv, hn, hs, hh, hwu, hwl] at hl
        | false =>
          refine ⟨?_, ⟨newUserOf env req.body passwordHash, ?_⟩, ?_⟩ <;>
            simp [register, hv, hn, hs, hh, hwu, hwl, newUserOf]

/-- The request `reqB` registered while the Lead collection refuses writes. -/
theorem register_not_atomic_witness :
    (register envLeadDown world0 reqB).res = fail 500 "Server error" ∧
    (register envLeadDown world0 reqB).world.leads = [] :=
  ⟨(register_not_atomic envLeadDown world0 reqB rfl (by decide) (by decide) (by decide)).1,
   (register_not_atomic envLeadDown world0 reqB rfl (by decide) (by decide) (by decide)).2.2⟩

/-! ## Successful login -/

/-- A user found by `findOne` is a stored user with the queried email. -/
theorem findOne_some_mem {env : Env} {w : World} {email : JVal} {u : User}
    (h : findOne env w email = some (some u)) : u ∈ w.users ∧ u.email = email := by
  unfold findOne at h
  split at h
  · simp only [Option.some.injEq] at h
    exact ⟨List.mem_of_find?_eq_some h, by simpa using List.find?_some h⟩
  · simp at h

/-- After `updateUser`, a stored user with the identifier of the saved document
is replaced by it. -/
theorem updateUser_mem {w : World} {u v : User} (hu : u ∈ w.users) (hid : u._id = v._id) :
    v ∈ (updateUser w v).users := by
  simp only [updateUser, List.mem_map]
  exact ⟨u, hu, by simp [hid]⟩

/-- After `updateUser`, every stored user with the identifier of the saved
document is that document. -/
theorem updateUser_eq_of_id {w : World} {v x : User} (hx : x ∈ (updateUser w v).users)
    (hid : x._id = v._id) : x = v := by
  simp only [updateUser, List.mem_map] at hx
  obtain ⟨y, _, hy⟩ := hx
  by_cases h : y._id = v._id
  · simpa [h] using hy.symm
  · simp only [h, if_false] at hy
    exact absurd (hy ▸ hid) h

/-- C7 as stated fails: with `JWT_SECRET` unset, a login with the right
credentials of the active user `alice`, the store write succeeding, persists the
new `lastLogin` but is answered 500 without any token; the same login is
answered 500 when `JWT_SECRET` is set and `JWT_EXPIRES_IN` is not a time span. -/
theorem login_without_secret_500 :
    findOne envNoSecret world0 (.str "a@x.com") = some (some alice) ∧
    alice.active = true ∧
    envNoSecret.compare (.str "pw123456") alice.passwordHash = some true ∧
    envNoSecret.writeOk .users = true ∧
    (login envNoSecret world0 ⟨.str "a@x.com", .str "pw123456"⟩).res =
      fail 500 "Server error during login" ∧
    (login envNoSecret world0 ⟨.str "a@x.com", .str "pw123456"⟩).world.users =
      [{ alice with lastLogin := some (envNoSecret.now + 19800000) }] ∧
    envBadExpiry.jwtSecret = some "s3cret" ∧
    (login envBadExpiry world0 ⟨.str "a@x.com", .str "pw123456"⟩).res =
      fail 500 "Server error during login" := by
  decide

/-- C7, amended: for every login with a non-empty email and password, a matching
stored user with `active = true`, the password matching the stored hash, the
store write succeeding, and the token signing succeeding (`JWT_SECRET` set and
not empty, the expiry string accepted by the signer), login sets the user's
`lastLogin` to the current instant plus 19,800,000 ms and persists it, and
responds 200 with a token whose signed payload is the user's `_id` (decoding it
yields that identifier), the same token in the httpOnly `token` cookie and in
the JSON body, and a user object holding exactly id, name, email, course and
university of the stored user. -/
theorem login_success (env : Env) (w : World) (body : LoginBody) (u : User) (key : String)
    (he : body.email.truthy = true) (hp : body.password.truthy = true)
    (hu : findOne env w body.email = some (some u)) (ha : u.active = true)
    (hc : env.compare body.password u.passwordHash = some true)
    (hw : env.writeOk .users = true)
    (hk : env.jwtSecret = some key) (hk0 : key ≠ "")
    (ht : env.validTimespan (expiresInOf env) = true) :
    ∃ tok : Token,
      (login env w body).world =
        updateUser w { u with lastLogin := some (env.now + 19800000) } ∧
      { u with lastLogin := some (env.now + 19800000) } ∈ (login env w body).world.users ∧
      (∀ x ∈ (login env w body).world.users, x._id = u._id →
        x.lastLogin = some (env.now + 19800000)) ∧
      (login env w body).res.status = 200 ∧
      tok.id = u._id ∧ tok.decode = u._id ∧
      (∃ c : Cookie, (login env w body).res.cookies = [c] ∧ c.name = "token" ∧
        c.httpOnly = true ∧ c.value = tok) ∧
      (login env w body).res.body = .session tok
        { id := u._id, name := u.name, email := u.email, course := u.course
          university := u.university } := by
  have hsign : jwtSign env u._id (expiresInOf env) =
      some { id := u._id, secret := key, expiresIn := expiresInOf env } := by
    simp [jwtSign, hk, hk0, ht]
  have hlogin : login env w body =
      ⟨{ status := 200
         cookies :=
           [{ name := "token"
              value := { id := u._id, secret := key, expiresIn := expiresInOf env }
              httpOnly := true
              secure := isProduction env
              sameSite := if isProduction env then "none" else "lax"
              maxAge := cookieExpiration (expiresInOf env) }]
         body := .session { id := u._id, secret := key, expiresIn := expiresInOf env }
           { id := u._id, name := u.name, email := u.email, course := u.course
             university := u.university } },
       updateUser w { u with lastLogin := some (env.now + 19800000) },
       [.findUser true, .compare true, .save .users true, .sendToken, .jwtSign true]⟩ := by
    simp [login, he, hp, hu, ha, hc, hw, sendToken, hsign, istOffset]
  refine ⟨{ id := u._id, secret := key, expiresIn := expiresInOf env }, ?_⟩
  rw [hlogin]
  refine ⟨rfl, updateUser_mem (findOne_some_mem hu).1 rfl, ?_, rfl, rfl, rfl, ⟨_, rfl, rfl, rfl, rfl⟩, rfl⟩
  intro x hx hid
  rw [updateUser_eq_of_id hx hid]

/-- The active user `alice` logging in with the right password. -/
theorem login_success_witness :
    ∃ tok : Token,
      (login env0 world0 ⟨.str "a@x.com", .str "pw123456"⟩).res.status = 200 ∧
      tok.decode = "u1" ∧
      (login env0 world0 ⟨.str "a@x.com", .str "pw123456"⟩).res.body = .session tok
        { id := "u1", name := .str "A", email := .str "a@x.com", course := .str "C"
          university := .str "U" } := by
  obtain ⟨tok, _, _, _, h4, _, h6, _, h8⟩ :=
    login_success env0 world0 ⟨.str "a@x.com", .str "pw123456"⟩ alice "s3cret"
      (by decide) (by decide) (by decide) (by decide) (by decide) (by decide) rfl
      (by decide) (by decide)
  exact ⟨tok, h4, h6, h8⟩

/-! ## The cookie lifetime of sendToken -/

/-- C5, at the failing input: for the expiry string `60 seconds`, which denotes
seconds, `sendToken` computes a cookie max-age of 60 days (5,184,000,000 ms),
not 86,400,000 ms, and sets it on the `token` cookie. -/
theorem cookieExpiration_sixty_seconds :
    expiresInOf envSeconds = "60 seconds" ∧
    cookieExpiration "60 seconds" = some 5184000000 ∧
    cookieExpiration "60 seconds" ≠ some 86400000 ∧
    (sendToken envSeconds alice 200).1.map (fun r => r.cookies.map Cookie.maxAge) =
      some [some 5184000000] := by
  decide

/-- An upper-case day unit is not recognised: `7D` gets one day. -/
theorem cookieExpiration_upper_case_days : cookieExpiration "7D" = some 86400000 := by
  decide

/-- The default expiry string `7d` gives 604,800,000 ms. -/
theorem cookieExpiration_default (env : Env) (h : env.jwtExpiresIn = none) :
    cookieExpiration (expiresInOf env) = some 604800000 := by
  simp only [expiresInOf, h]
  decide

/-- An expiry string without the character `d` gives exactly one day. -/
theorem cookieExpiration_without_d (s : String) (h : 'd' ∉ s.toList) :
    cookieExpiration s = some 86400000 := by
  unfold cookieExpiration
  rw [if_neg (by simpa using h)]
  rfl

/-! ### Expiry strings of the form `<n>d` -/

/-- What `parseInt` needs to know of a decimal digit: it is not white space, not
a sign, not the `x` of a hexadecimal literal, not `d`, and `digitVal` reads it. -/
theorem isDecimalDigit_props {c : Char} (h : IsDecimalDigit c) :
    isJsSpace c = false ∧ c ≠ '-' ∧ c ≠ '+' ∧ c ≠ 'x' ∧ c ≠ 'X' ∧ c ≠ 'd' ∧
    ∃ k, k < 10 ∧ digitVal 10 c = some k ∧ c = Nat.digitChar k := by
  obtain ⟨k, hk, rfl⟩ := h
  interval_cases k <;>
    refine ⟨by decide, by decide, by decide, by decide, by decide, by decide, _,
      by decide, by decide, rfl⟩

/-- Printing a number in base ten in front of decimal digits gives decimal
digits. -/
theorem toDigitsCore_isDecimalDigit (fuel : Nat) : ∀ (n : Nat) (ds : List Char),
    (∀ c ∈ ds, IsDecimalDigit c) → ∀ c ∈ Nat.toDigitsCore 10 fuel n ds, IsDecimalDigit c := by
  induction fuel with
  | zero => intro n ds hds; simpa [Nat.toDigitsCore] using hds
  | succ fuel ih =>
    intro n ds hds
    have hd : ∀ c ∈ Nat.digitChar (n % 10) :: ds, IsDecimalDigit c := by
      intro c hc
      rcases List.mem_cons.1 hc with rfl | hc
      · exact ⟨n % 10, Nat.mod_lt _ (by decide), rfl⟩
      · exact hds c hc
    simp only [Nat.toDigitsCore]
    split
    · exact hd
    · exact ih _ _ hd

/-- Reading back the printed digits of `n`: `readDigits` arrives at `n` and goes
on with what follows them. -/
theorem readDigits_toDigitsCore (fuel : Nat) : ∀ (n : Nat) (ds rest : List Char), n < fuel →
    readDigits 10 (Nat.toDigitsCore 10 fuel n ds ++ rest) none =
      readDigits 10 (ds ++ rest) (some n) := by
  induction fuel with
  | zero => intro n ds rest h; omega
  | succ fuel ih =>
    intro n ds rest h
    have hdig : digitVal 10 (Nat.digitChar (n % 10)) = some (n % 10) := by
      have : n % 10 < 10 := Nat.mod_lt _ (by decide)
      generalize n % 10 = m at *
      interval_cases m <;> rfl
    have hsplit := Nat.div_add_mod n 10
    simp only [Nat.toDigitsCore]
    split
    · simp only [List.cons_append, readDigits, hdig, Option.getD_none]
      congr 2
      omega
    · rw [ih (n / 10) _ rest (by omega)]
      simp only [List.cons_append, readDigits, hdig, Option.getD_some]
      congr 2
      omega

/-- Without a hexadecimal marker, `parseMagnitude` reads decimal digits. -/
theorem parseMagnitude_decimal (c : Char) (rest : List Char)
    (hc : ∀ c2 tl, rest = c2 :: tl → c2 ≠ 'x' ∧ c2 ≠ 'X') :
    parseMagnitude (c :: rest) = readDigits 10 (c :: rest) none := by
  unfold parseMagnitude
  split
  · rename_i cs h
    simp only [List.cons.injEq] at h
    exact absurd rfl (hc _ _ h.2).1
  · rename_i cs h
    simp only [List.cons.injEq] at h
    exact absurd rfl (hc _ _ h.2).2
  · rfl

/-- On a non-empty run of decimal digits followed by `d`, `parseInt` reads the
run in base ten. -/
theorem parseInt_of_digits (s : String) (L : List Char) (hs : s.toList = L ++ ['d'])
    (hne : L ≠ []) (hL : ∀ c ∈ L, IsDecimalDigit c) :
    parseInt s = (readDigits 10 (L ++ ['d']) none).map (fun n => (n : Int)) := by
  cases L with
  | nil => exact absurd rfl hne
  | cons c L =>
    obtain ⟨hsp, hm, hp, _, _, _, _⟩ := isDecimalDigit_props (hL c (List.mem_cons_self _ _))
    have hmag : parseMagnitude (c :: (L ++ ['d'])) =
        readDigits 10 (c :: (L ++ ['d'])) none := by
      apply parseMagnitude_decimal
      intro c2 tl h2
      cases L with
      | nil =>
        simp only [List.nil_append, List.cons.injEq] at h2
        rw [← h2.1]; decide
      | cons c3 L =>
        simp only [List.cons_append, List.cons.injEq] at h2
        obtain ⟨_, _, _, hx, hX, _, _⟩ := isDecimalDigit_props (hL c3 (by simp))
        rw [← h2.1]; exact ⟨hx, hX⟩
    unfold parseInt
    rw [hs, List.cons_append, List.dropWhile_cons, hsp]
    simp only [Bool.false_eq_true, if_false]
    split
    · rename_i cs h
      simp only [List.cons.injEq] at h
      exact absurd h.1 hm
    · rename_i cs h
      simp only [List.cons.injEq] at h
      exact absurd h.1 hp
    · rw [hmag]

/-- The characters of the string `<n>d`. -/
theorem toList_days (n : Nat) : (toString n ++ "d").toList = Nat.toDigits 10 n ++ ['d'] := by
  show (Nat.repr n ++ "d").data = _
  simp [Nat.repr, String.data_append, List.asString]

/-- The call `parseInt` on the string `<n>d` gives `n`. -/
theorem parseInt_days (n : Nat) : parseInt (toString n ++ "d") = some (n : Int) := by
  have hL : ∀ c ∈ Nat.toDigits 10 n, IsDecimalDigit c :=
    toDigitsCore_isDecimalDigit _ _ _ (by simp)
  have hne : Nat.toDigits 10 n ≠ [] := by
    unfold Nat.toDigits Nat.toDigitsCore
    simp only
    split
    · simp
    · intro h
      have := congrArg List.length h
      rw [Nat.toDigitsCore_lens_eq] at this
      simp at this
  rw [parseInt_of_digits _ _ (toList_days n) hne hL]
  unfold Nat.toDigits
  rw [readDigits_toDigitsCore _ _ _ _ (Nat.lt_succ_self n)]
  simp [readDigits, digitVal]

/-- For the expiry string `<n>d`, `n` written in decimal, the cookie max-age is
`n * 86,400,000` ms. -/
theorem cookieExpiration_days (n : Nat) :
    cookieExpiration (toString n ++ "d") = some ((n : Int) * 86400000) := by
  unfold cookieExpiration
  rw [if_pos (by rw [toList_days]; simp), parseInt_days]
  rfl

/-! ## The intake handlers -/

/-- A field that is absent or empty is falsy. -/
theorem JVal.not_truthy_of_absentOrEmpty {v : JVal} (h : v.absentOrEmpty = true) :
    v.truthy = false := by
  cases v <;> simp_all [JVal.absentOrEmpty, JVal.truthy]

/-- C6 as stated fails: a demo request whose type `online` is outside
`video`, `home` is answered 400 when its name is absent, and so is a complete
request whose type is the empty string. -/
theorem createDemoRequest_bad_type_400 :
    demoNoName.type = .str "online" ∧
    (createDemoRequest env0 emptyWorld demoNoName).res = fail 400 "All fields are required" ∧
    demoNoType.type = .str "" ∧
    (createDemoRequest env0 emptyWorld demoNoType).res = fail 400 "All fields are required" := by
  decide

/-- C6, amended: for every demo intake request whose six required fields are all
present and non-empty and whose type, cast to a string by the schema, is outside
`video`, `home`, createDemoRequest does not answer 400: the record is rejected
by the schema's enum constraint on type when it is saved, nothing is persisted,
and the response is 500 with the generic `Server error` body. -/
theorem createDemoRequest_enum_violation (env : Env) (w : World) (b : DemoBody)
    (hname : b.name.truthy = true) (hemail : b.email.truthy = true)
    (hphone : b.phone.truthy = true) (hcity : b.city.truthy = true)
    (hcourse : b.course.truthy = true) (htype : b.type.truthy = true)
    (hv : castString env b.type ≠ some "video") (hh : castString env b.type ≠ some "home") :
    (createDemoRequest env w b).res = fail 500 "Server error" ∧
    (createDemoRequest env w b).res.status ≠ 400 ∧
    validateDemo env b = none ∧
    (createDemoRequest env w b).world = w ∧
    (createDemoRequest env w b).trace = [.save .demos false] := by
  have hval : validateDemo env b = none := by
    unfold validateDemo
    split
    · rename_i name email phone city course type _ _ _ _ _ ht
      have hcast : castString env b.type = some type := by
        unfold requiredString at ht
        split at ht
        · rename_i s hs
          split at ht
          · simp only [id, Option.some.injEq] at ht
            rw [hs, ht]
          · simp at ht
        · simp at ht
      have h1 : type ≠ "video" := fun h => hv (by rw [hcast, h])
      have h2 : type ≠ "home" := fun h => hh (by rw [hcast, h])
      simp [h1, h2]
    · rfl
  simp [createDemoRequest, hname, hemail, hphone, hcity, hcourse, htype, hval, fail]

/-- The complete request `demoOnline`, of type `online`. -/
theorem createDemoRequest_enum_violation_witness :
    (createDemoRequest env0 emptyWorld demoOnline).res = fail 500 "Server error" ∧
    (createDemoRequest env0 emptyWorld demoOnline).world = emptyWorld :=
  ⟨(createDemoRequest_enum_violation env0 emptyWorld demoOnline (by decide) (by decide)
      (by decide) (by decide) (by decide) (by decide) (by decide) (by decide)).1,
   (createDemoRequest_enum_violation env0 emptyWorld demoOnline (by decide) (by decide)
      (by decide) (by decide) (by decide) (by decide) (by decide) (by decide)).2.2.2.1⟩

/-- C8: for each of the three intake handlers (createGeneralLead requiring name,
email, phone, message; createDemoRequest requiring name, email, phone, city,
course, type; createEnquiry requiring name, email, phone), whenever at least one
field of the handler's required set is absent or empty in the request body, the
handler responds with status 400, the store is unchanged, and no library call,
so no `save`, is reached. -/
theorem intake_missing_required_field (env : Env) (w : World) :
    (∀ b : GeneralLeadBody,
      (b.name.absentOrEmpty = true ∨ b.email.absentOrEmpty = true ∨
        b.phone.absentOrEmpty = true ∨ b.message.absentOrEmpty = true) →
      (createGeneralLead env w b).res.status = 400 ∧
      (createGeneralLead env w b).world = w ∧
      (createGeneralLead env w b).trace = []) ∧
    (∀ b : DemoBody,
      (b.name.absentOrEmpty = true ∨ b.email.absentOrEmpty = true ∨
        b.phone.absentOrEmpty = true ∨ b.city.absentOrEmpty = true ∨
        b.course.absentOrEmpty = true ∨ b.type.absentOrEmpty = true) →
      (createDemoRequest env w b).res.status = 400 ∧
      (createDemoRequest env w b).world = w ∧
      (createDemoRequest env w b).trace = []) ∧
    (∀ b : EnquiryBody,
      (b.name.absentOrEmpty = true ∨ b.email.absentOrEmpty = true ∨
        b.phone.absentOrEmpty = true) →
      (createEnquiry env w b).res.status = 400 ∧
      (createEnquiry env w b).world = w ∧
      (createEnquiry env w b).trace = []) := by
  refine ⟨fun b h => ?_, fun b h => ?_, fun b h => ?_⟩
  · rcases h with h | h | h | h <;>
      simp [createGeneralLead, JVal.not_truthy_of_absentOrEmpty h, fail]
  · rcases h with h | h | h | h | h | h <;>
      simp [createDemoRequest, JVal.not_truthy_of_absentOrEmpty h, fail]
  · rcases h with h | h | h <;>
      simp [createEnquiry, JVal.not_truthy_of_absentOrEmpty h, fail]

/-- One request per handler with a required field missing: a general lead
without message, a demo request without name, an enquiry without phone. -/
theorem intake_missing_required_field_witness :
    ((createGeneralLead env0 world0 leadNoMessage).res.status = 400 ∧
      (createGeneralLead env0 world0 leadNoMessage).world = world0) ∧
    ((createDemoRequest env0 world0 demoNoName).res.status = 400 ∧
      (createDemoRequest env0 world0 demoNoName).world = world0) ∧
    ((createEnquiry env0 world0 enquiryNoPhone).res.status = 400 ∧
      (createEnquiry env0 world0 enquiryNoPhone).world = world0) :=
  ⟨⟨((intake_missing_required_field env0 world0).1 leadNoMessage
        (Or.inr (Or.inr (Or.inr (by decide))))).1,
    ((intake_missing_required_field env0 world0).1 leadNoMessage
        (Or.inr (Or.inr (Or.inr (by decide))))).2.1⟩,
   ⟨((intake_missing_required_field env0 world0).2.1 demoNoName (Or.inl (by decide))).1,
    ((intake_missing_required_field env0 world0).2.1 demoNoName (Or.inl (by decide))).2.1⟩,
   ⟨((intake_missing_required_field env0 world0).2.2 enquiryNoPhone
        (Or.inr (Or.inr (by decide)))).1,
    ((intake_missing_required_field env0 world0).2.2 enquiryNoPhone
        (Or.inr (Or.inr (by decide)))).2.1⟩⟩

/-- C9 as stated fails: two general-lead requests that miss different sets of
required fields, the name for one and the message for the other, receive the
same 400 response, whose body names no field. -/
theorem createGeneralLead_same_body_for_different_missing :
    leadNoName.missing = ["name"] ∧
    leadNoMessage.missing = ["message"] ∧
    leadNoName.missing ≠ leadNoMessage.missing ∧
    (createGeneralLead env0 emptyWorld leadNoName).res =
      (createGeneralLead env0 emptyWorld leadNoMessage).res ∧
    (createGeneralLead env0 emptyWorld leadNoName).res.body =
      .failure "All fields are required" := by
  decide

/-- C9, amended: the 400 response of an intake handler does not list the missing
fields. For every request with at least one required field absent or empty the
body is fixed per handler, `All fields are required` for createGeneralLead and
createDemoRequest and `Name, email, and phone are required` for createEnquiry,
with `success: false` and no cookie, whichever fields are missing; so two
requests to the same handler that miss different sets of required fields
receive the same response. -/
theorem intake_400_body_fixed (env : Env) (w : World) :
    (∀ b : GeneralLeadBody,
      (b.name.absentOrEmpty = true ∨ b.email.absentOrEmpty = true ∨
        b.phone.absentOrEmpty = true ∨ b.message.absentOrEmpty = true) →
      (createGeneralLead env w b).res = fail 400 "All fields are required") ∧
    (∀ b : DemoBody,
      (b.name.absentOrEmpty = true ∨ b.email.absentOrEmpty = true ∨
        b.phone.absentOrEmpty = true ∨ b.city.absentOrEmpty = true ∨
        b.course.absentOrEmpty = true ∨ b.type.absentOrEmpty = true) →
      (createDemoRequest env w b).res = fail 400 "All fields are required") ∧
    (∀ b : EnquiryBody,
      (b.name.absentOrEmpty = true ∨ b.email.absentOrEmpty = true ∨
        b.phone.absentOrEmpty = true) →
      (createEnquiry env w b).res = fail 400 "Name, email, and phone are required") := by
  refine ⟨fun b h => ?_, fun b h => ?_, fun b h => ?_⟩
  · rcases h with h | h | h | h <;>
      simp [createGeneralLead, JVal.not_truthy_of_absentOrEmpty h]
  · rcases h with h | h | h | h | h | h <;>
      simp [createDemoRequest, JVal.not_truthy_of_absentOrEmpty h]
  · rcases h with h | h | h <;>
      simp [createEnquiry, JVal.not_truthy_of_absentOrEmpty h]

/-- The two general-lead requests that miss different fields get the same
response. -/
theorem intake_400_body_fixed_witness :
    (createGeneralLead env0 world0 leadNoName).res =
      (createGeneralLead env0 world0 leadNoMessage).res :=
  ((intake_400_body_fixed env0 world0).1 leadNoName (Or.inl (by decide))).trans
    ((intake_400_body_fixed env0 world0).1 leadNoMessage
      (Or.inr (Or.inr (Or.inr (by decide))))).symm

end Unifost
